import Mathlib

/-!
Verification development for the polymarket-binance-latency-arb execution
engine. The definitions below are a shallow embedding of the JavaScript
source:

* `RiskManager` (src/unnamed/part_005): the money ledger — `canTrade`
  pre-trade gate, `openPosition`, `closePosition`, `applyPartialClose`.
* `Executor` (src/unnamed/part_012): order state machine — fill parsing
  (`parseFilledQty`, `clampFilledQty`), fill reconciliation (`waitForFill`),
  entry (`execute`) and exit (`exitPosition`, `finalizeClose`).

Modelling conventions:
* JavaScript numbers are embedded as `ℚ`. All arithmetic appearing in the
  claims is exact in both float and rational arithmetic. (JS `NaN`/`Infinity`
  edge cases of division are noted where they could arise; none of the claims
  depends on them.)
* JS `Map` objects are embedded as association lists (insertion order
  preserved, keys unique), with `mapGet` / `mapSet` / `mapDel`.
* `Date.now()` is passed in explicitly as a `now : ℚ` parameter; timers and
  wall-clock waits are outside the embedding.
* Exchange I/O (`placeOrder`, `getOrder`, `fetchOrderbook`, the push
  fill-event channel) is driven by explicit oracle values describing what the
  exchange answers; a thrown exception is `Option.none`. Externally visible
  order actions are accumulated in an explicit action list.
* Log lines and dashboard fields are not modelled; `sendAlert` calls are
  accumulated as a list of alert strings. Rejection reason strings produced
  by `canTrade` are abstracted to a `Reason` tag per check (the source pushes
  one interpolated message string per failed check).
-/

/-! ## Association-list maps (JS `Map` embedding) -/

def mapGet {α : Type} (m : List (String × α)) (k : String) : Option α :=
  match m with
  | [] => none
  | (k', v) :: rest => if k' = k then some v else mapGet rest k

def mapSet {α : Type} (m : List (String × α)) (k : String) (v : α) :
    List (String × α) :=
  match m with
  | [] => [(k, v)]
  | (k', v') :: rest =>
      if k' = k then (k', v) :: rest else (k', v') :: mapSet rest k v

def mapDel {α : Type} (m : List (String × α)) (k : String) :
    List (String × α) :=
  match m with
  | [] => []
  | (k', v') :: rest =>
      if k' = k then mapDel rest k else (k', v') :: mapDel rest k

theorem mapGet_set_self {α : Type} (m : List (String × α)) (k : String) (v : α) :
    mapGet (mapSet m k v) k = some v := by
  induction m with
  | nil => simp [mapGet, mapSet]
  | cons hd tl ih =>
      obtain ⟨k', v'⟩ := hd
      by_cases h : k' = k <;> simp [mapGet, mapSet, h, ih]

theorem mapGet_del_self {α : Type} (m : List (String × α)) (k : String) :
    mapGet (mapDel m k) k = none := by
  induction m with
  | nil => simp [mapGet, mapDel]
  | cons hd tl ih =>
      obtain ⟨k', v'⟩ := hd
      by_cases h : k' = k <;> simp [mapGet, mapDel, h, ih]

/-! ## Utility math (src/utils/math.js) -/

/-- `polymarketFee(price)` from src/utils/math.js:
clamp the price into `[0.01, 0.99]` and return `0.25 * (p * (1-p))^2`. -/
def polymarketFee (price : ℚ) : ℚ :=
  let p := max (1/100) (min (99/100) price)
  (1/4) * (p * (1 - p))^2

/-- JS `Math.round` on the values that occur here: `⌊x + 1/2⌋`
(round half toward positive infinity). -/
def jsRound (x : ℚ) : ℤ := ⌊x + 1/2⌋

/-- `Math.round(x * 100) / 100` — rounding a dollar amount to cents. -/
def round2 (x : ℚ) : ℚ := (jsRound (x * 100) : ℚ) / 100

/-- `RunningStats` from src/utils/math.js (Welford accumulator).
The `min`/`max` fields start at `±Infinity`; the sentinel is embedded as
`Option.none`. -/
structure RunningStats where
  n : Nat
  sum : ℚ
  mean : ℚ
  m2 : ℚ
  minV : Option ℚ
  maxV : Option ℚ
deriving Repr, DecidableEq

def RunningStats.init : RunningStats :=
  { n := 0, sum := 0, mean := 0, m2 := 0, minV := none, maxV := none }

/-- `RunningStats.push(x)`. -/
def rsPush (r : RunningStats) (x : ℚ) : RunningStats :=
  let n := r.n + 1
  let mean := r.mean + (x - r.mean) / (n : ℚ)
  { n := n
    sum := r.sum + x
    mean := mean
    m2 := r.m2 + (x - r.mean) * (x - mean)
    minV := some (match r.minV with | none => x | some m => min m x)
    maxV := some (match r.maxV with | none => x | some m => max m x) }

/-! ## RiskManager data model (src/unnamed/part_005) -/

/-- The `CONFIG.risk` fields consumed by `RiskManager`. -/
structure RiskCfg where
  bankroll : ℚ
  maxOpenPositions : Nat
  cooldownMs : ℚ
  slippageBps : ℚ
  maxDrawdownPct : ℚ
  dailyLossLimit : ℚ
deriving Repr, DecidableEq

/-- A signal as consumed by `RiskManager.canTrade` and `Executor.execute`.
`estimatedFillProb` is the source's `_estimatedFillProb`; `spreadF` is the
source's `_spread`. `Option.none` embeds an `undefined`/absent field. -/
structure Signal where
  label : String
  direction : String
  tokenId : String
  entryPrice : ℚ
  contractPrice : ℚ
  size : ℚ
  edge : ℚ
  modelProb : ℚ
  hoursToExpiry : ℚ
  spreadF : Option ℚ
  availableLiquidity : Option ℚ
  estimatedFillProb : Option ℚ
deriving Repr, DecidableEq

/-- An entry in `RiskManager.openPositions` (the spread of the `trade`
argument of `openPosition` plus `openTime`). -/
structure Position where
  id : String
  side : String
  size : ℚ
  entryPrice : ℚ
  openTime : ℚ
deriving Repr, DecidableEq

/-- The argument record of `RiskManager.openPosition` as built by the
executor: `{ id, side, size, entryPrice }`. -/
structure PosIn where
  id : String
  side : String
  size : ℚ
  entryPrice : ℚ
deriving Repr, DecidableEq

/-- Mutable state of a `RiskManager` instance. -/
structure RiskState where
  bankroll : ℚ
  peakBankroll : ℚ
  openPositions : List (String × Position)
  lastTradeTime : ℚ
  dailyPnl : ℚ
  dailyTrades : Nat
  dailyHighWatermark : ℚ
  dailyResetTime : ℚ
  killed : Bool
  killReason : Option String
deriving Repr, DecidableEq

/-- One `Reason` tag per rejection branch of `canTrade` (the source pushes an
interpolated message string; the message text is presentation only). -/
inductive Reason where
  | killedReason
  | cooldown
  | maxPositions
  | bankrollDepleted
  | dailyLossLimit
  | maxDrawdown
  | edgeTooThin
  | lowFillProb
  | insufficientLiquidity
deriving Repr, DecidableEq

/-- `RiskManager._resetDailyIfNeeded`, with `Date.now()` passed as `now` and
the recomputed `_nextMidnight()` passed as `nextMidnight`. -/
def resetDailyIfNeeded (s : RiskState) (now nextMidnight : ℚ) : RiskState :=
  if s.dailyResetTime < now then
    { s with dailyPnl := 0, dailyTrades := 0,
             dailyHighWatermark := s.bankroll,
             dailyResetTime := nextMidnight }
  else s

/-- Result of `RiskManager.canTrade` together with the state after the call
and the (possibly size-scaled) signal. The informational `drawdown` /
`openCount` / `dailyPnl` fields of the source's return object are derivable
from `state` and are not repeated here. -/
structure CanTradeOut where
  state : RiskState
  allowed : Bool
  reasons : List Reason
  signal : Option Signal
deriving Repr, DecidableEq

/-- The reason tags accumulated by one `canTrade` evaluation on the
non-killed path (part_005 lines 63-120), in source push order: cooldown,
max open positions, bankroll floor, daily loss limit, max drawdown,
edge-vs-cost, fill-probability gate, liquidity floor. -/
def canTradeReasons (cfg : RiskCfg) (s : RiskState) (now : ℚ)
    (sig0 : Option Signal) : List Reason :=
  (if now - s.lastTradeTime < cfg.cooldownMs then [Reason.cooldown] else [])
  ++ (if cfg.maxOpenPositions ≤ s.openPositions.length then
        [Reason.maxPositions] else [])
  ++ (if s.bankroll < 10 then [Reason.bankrollDepleted] else [])
  ++ (if s.bankroll ≤ s.dailyHighWatermark - cfg.dailyLossLimit then
        [Reason.dailyLossLimit] else [])
  ++ (if cfg.maxDrawdownPct ≤ (s.peakBankroll - s.bankroll) / s.peakBankroll
      then [Reason.maxDrawdown] else [])
  ++ (match sig0 with
      | some sig =>
          if sig.edge < cfg.slippageBps / 10000 + polymarketFee sig.entryPrice
          then [Reason.edgeTooThin] else []
      | none => [])
  ++ (match sig0 with
      | some sig =>
          match sig.estimatedFillProb with
          | some p => if p < 3/10 then [Reason.lowFillProb] else []
          | none => []
      | none => [])
  ++ (match sig0 with
      | some sig =>
          match sig.availableLiquidity with
          | some avail =>
              if avail * (3/4) < 5 then [Reason.insufficientLiquidity] else []
          | none => []
      | none => [])

/-- The in-place `signal.size` down-scaling of the liquidity check
(part_005 lines 112-120): above the floor, a size exceeding 75% of depth is
set to exactly that threshold rounded to cents. -/
def canTradeScaledSignal (sig0 : Option Signal) : Option Signal :=
  match sig0 with
  | some sig =>
      match sig.availableLiquidity with
      | some avail =>
          let maxByDepth := avail * (3/4)
          if maxByDepth < 5 then some sig
          else if maxByDepth < sig.size then
            some { sig with size := round2 maxByDepth }
          else some sig
      | none => some sig
  | none => none

/-- `RiskManager.canTrade(signal)` (src/unnamed/part_005 lines 52-135).
All `Date.now()` reads within the call are embedded as the single `now`.
The kill switch short-circuits; otherwise the accumulated reason list is
`canTradeReasons`, the drawdown check sets the sticky kill flag, the
liquidity check may scale the signal size (`canTradeScaledSignal`), and,
iff no reason was pushed, the cooldown slot is stamped with `now` as part
of the same call. -/
def canTrade (cfg : RiskCfg) (s0 : RiskState) (now nextMidnight : ℚ)
    (sig0 : Option Signal) : CanTradeOut :=
  let s := resetDailyIfNeeded s0 now nextMidnight
  if s.killed then
    { state := s, allowed := false, reasons := [Reason.killedReason],
      signal := sig0 }
  else
    let reasons := canTradeReasons cfg s now sig0
    let hitDrawdown :=
      cfg.maxDrawdownPct ≤ (s.peakBankroll - s.bankroll) / s.peakBankroll
    let s := if hitDrawdown then
        { s with killed := true, killReason := some "Max drawdown exceeded" }
      else s
    let allowed := reasons.isEmpty
    let s := if allowed then { s with lastTradeTime := now } else s
    { state := s, allowed := allowed, reasons := reasons,
      signal := canTradeScaledSignal sig0 }

/-- `RiskManager.openPosition(trade)` (part_005 lines 138-153). -/
def openPosition (s : RiskState) (t : PosIn) (now : ℚ) : RiskState :=
  { s with
    openPositions := mapSet s.openPositions t.id
      { id := t.id, side := t.side, size := t.size,
        entryPrice := t.entryPrice, openTime := now }
    bankroll := s.bankroll - t.size
    dailyTrades := s.dailyTrades + 1 }

/-- `RiskManager.closePosition(tradeId, pnl)` (part_005 lines 155-180).
Unknown ids are a logged no-op. -/
def closePosition (s : RiskState) (tradeId : String) (pnl : ℚ) : RiskState :=
  match mapGet s.openPositions tradeId with
  | none => s
  | some pos =>
      let bank := s.bankroll + pos.size + pnl
      { s with
        openPositions := mapDel s.openPositions tradeId
        bankroll := bank
        dailyPnl := s.dailyPnl + pnl
        peakBankroll := max s.peakBankroll bank
        dailyHighWatermark := max s.dailyHighWatermark bank }

/-- `RiskManager.applyPartialClose(tradeId, {realizedNotional, realizedPnl})`
(part_005 lines 189-207). Unknown ids are a logged no-op. -/
def applyPartialClose (s : RiskState) (tradeId : String)
    (realizedNotional realizedPnl : ℚ) : RiskState :=
  match mapGet s.openPositions tradeId with
  | none => s
  | some pos =>
      let pos' := { pos with size := max 0 (pos.size - realizedNotional) }
      let bank := s.bankroll + realizedNotional + realizedPnl
      { s with
        openPositions := mapSet s.openPositions tradeId pos'
        bankroll := bank
        dailyPnl := s.dailyPnl + realizedPnl
        peakBankroll := max s.peakBankroll bank
        dailyHighWatermark := max s.dailyHighWatermark bank }

/-! ## Ledger operation traces (for the bankroll-conservation property)

`RiskOp` is one call to a position-lifecycle mutator; `runRiskOps` replays a
call sequence. The `op…`/`traced…` functions below are the SPEC-side
accounting (spec.md section 8: "final bankroll = initial bankroll −
Σ(position sizes debited) + Σ(capital returned) + Σ(all realized P&L)"),
written from the spec's words: a debit is the size passed to `openPosition`;
capital returned is the remaining tracked size on `closePosition` and the
`realizedNotional` on `applyPartialClose`, counted only when the id is
registered; realized P&L is the pnl argument of a registered close/partial
close. -/

inductive RiskOp where
  | openOp (t : PosIn) (now : ℚ)
  | closeOp (id : String) (pnl : ℚ)
  | partialCloseOp (id : String) (realizedNotional realizedPnl : ℚ)
deriving Repr, DecidableEq

def applyRiskOp (s : RiskState) : RiskOp → RiskState
  | RiskOp.openOp t now => openPosition s t now
  | RiskOp.closeOp id pnl => closePosition s id pnl
  | RiskOp.partialCloseOp id n p => applyPartialClose s id n p

def runRiskOps (s : RiskState) : List RiskOp → RiskState
  | [] => s
  | op :: rest => runRiskOps (applyRiskOp s op) rest

/-- Spec-side accounting: the size debited by one operation. -/
def opDebit (_s : RiskState) : RiskOp → ℚ
  | RiskOp.openOp t _ => t.size
  | _ => 0

/-- Spec-side accounting: the capital returned by one operation
(remaining tracked size on close, realized notional on partial close),
counted when the id is registered. -/
def opCapitalReturned (s : RiskState) : RiskOp → ℚ
  | RiskOp.openOp _ _ => 0
  | RiskOp.closeOp id _ =>
      match mapGet s.openPositions id with
      | some pos => pos.size
      | none => 0
  | RiskOp.partialCloseOp id n _ =>
      if (mapGet s.openPositions id).isSome then n else 0

/-- Spec-side accounting: the realized P&L booked by one operation. -/
def opRealizedPnl (s : RiskState) : RiskOp → ℚ
  | RiskOp.openOp _ _ => 0
  | RiskOp.closeOp id pnl =>
      if (mapGet s.openPositions id).isSome then pnl else 0
  | RiskOp.partialCloseOp id _ pnl =>
      if (mapGet s.openPositions id).isSome then pnl else 0

def tracedDebits (s : RiskState) : List RiskOp → ℚ
  | [] => 0
  | op :: rest => opDebit s op + tracedDebits (applyRiskOp s op) rest

def tracedCapitalReturned (s : RiskState) : List RiskOp → ℚ
  | [] => 0
  | op :: rest => opCapitalReturned s op + tracedCapitalReturned (applyRiskOp s op) rest

def tracedRealizedPnl (s : RiskState) : List RiskOp → ℚ
  | [] => 0
  | op :: rest => opRealizedPnl s op + tracedRealizedPnl (applyRiskOp s op) rest

/-! ## Executor — API response parsing (src/unnamed/part_012 lines 18-59)

A raw field of an exchange response is embedded as `RawVal`:
`missing` = absent/`null`/`undefined` (skipped by `??` chains),
`nonNum` = present but not parseable to a finite number
(`parseFloat` gives `NaN`, `isFinite` fails),
`val q` = present and parses to the finite number `q`. -/

inductive RawVal where
  | missing
  | nonNum
  | val (q : ℚ)
deriving Repr, DecidableEq

/-- JS `a ?? b` on raw fields: take `a` unless it is absent. -/
def rvCoalesce (a b : RawVal) : RawVal :=
  match a with
  | RawVal.missing => b
  | a => a

/-- `parseFloat` + `isFinite`: the finite numeric value, if any. -/
def rvNum (a : RawVal) : Option ℚ :=
  match a with
  | RawVal.val q => some q
  | _ => none

/-- `parsePrice(raw)` (part_012 lines 22-26): `null` for absent or
non-finite input, the parsed number otherwise. -/
def parsePrice (raw : RawVal) : Option ℚ := rvNum raw

/-- An order object returned by the exchange REST API (`getOrder`).
All numeric fields arrive as possibly-corrupt strings. -/
structure OrderResp where
  status : Option String
  remainingSize : RawVal
  remaining : RawVal
  sizeRemaining : RawVal
  size : RawVal
  makerAmount : RawVal
  avgPrice : RawVal
  fillPrice : RawVal
deriving Repr, DecidableEq

/-- `parseFilledQty(order)` (part_012 lines 32-46): filled = `size` minus the
first present of `remainingSize`/`remaining`/`sizeRemaining`, clamped below
at 0; else a positive `makerAmount`; else 0. -/
def parseFilledQty (o : OrderResp) : ℚ :=
  let rem := rvNum (rvCoalesce o.remainingSize (rvCoalesce o.remaining o.sizeRemaining))
  let tot := rvNum o.size
  match rem, tot with
  | some r, some t => max 0 (t - r)
  | _, _ =>
      match rvNum o.makerAmount with
      | some m => if 0 < m then m else 0
      | none => 0

/-- `clampFilledQty(filledQty, requestedQty)` (part_012 lines 48-51):
0 for non-finite or non-positive inputs, else `min filledQty requestedQty`.
The argument is `Option ℚ` because the source also feeds it raw push-channel
values (`isFinite` filters those). -/
def clampFilledQty (filledQty : Option ℚ) (requestedQty : ℚ) : ℚ :=
  match filledQty with
  | none => 0
  | some q => if q ≤ 0 then 0 else min q requestedQty

/-- JS `String.prototype.toUpperCase()` on ASCII status strings, embedded
character-wise (extensionally equal to `String.toUpper`, but stated by
structural recursion so that concrete instances evaluate). -/
def jsToUpper (s : String) : String := String.mk (s.data.map Char.toUpper)

/-- `normalizeStatus(raw)` (part_012 lines 57-59). -/
def normalizeStatus (raw : Option String) : String :=
  jsToUpper (raw.getD "")

/-! ## Executor — fill confirmation (`_waitForFill`, part_012 lines 228-374) -/

inductive FillStatus where
  | matched
  | partialFill
  | cancelled
  | timeout
  | unknownMatchedQty
deriving Repr, DecidableEq

/-- The normalized fill result returned by `_waitForFill`. -/
structure FillResult where
  status : FillStatus
  avgPrice : Option ℚ
  filledQty : ℚ
  fillSource : Option String := none
  qtyConfidence : Option String := none
deriving Repr, DecidableEq

/-- A push-channel (`waitForFillEvent`) outcome: raw status string plus raw
quantity/price fields. A `status` that is neither `"MATCHED"` nor
`"CANCELLED"` is the push-channel timeout sentinel. -/
structure WsResult where
  status : String
  filledQty : RawVal
  avgPrice : RawVal
deriving Repr, DecidableEq

/-- Oracle describing what the exchange answers during one `_waitForFill`
call. `ws = none` embeds a `waitForFillEvent` that returns `null`
(no push channel — REST polling fallback). `getOrderOnce` is the single
REST `getOrder` issued from the push branch (reconciliation after an
unsized MATCHED, or the final check after a push timeout); `none` = the call
throws. `polls` are the successive `getOrder` answers of the REST polling
loop until the deadline (`none` = that poll throws); `finalFetch` is the
post-deadline last fetch. -/
structure WaitOracle where
  ws : Option WsResult
  getOrderOnce : Option OrderResp
  polls : List (Option OrderResp)
  finalFetch : Option OrderResp
deriving Repr, DecidableEq

/-- The REST polling fallback of `_waitForFill` (part_012 lines 331-373):
poll until a terminal status or the deadline, then one final fetch to
detect a last-moment partial fill. -/
def restPollPath (requestedQty : ℚ) :
    List (Option OrderResp) → Option OrderResp → FillResult
  | [], finalFetch =>
      match finalFetch with
      | some ord =>
          let filledQty := clampFilledQty (some (parseFilledQty ord)) requestedQty
          if 0 < filledQty then
            { status := FillStatus.partialFill
              avgPrice := parsePrice (rvCoalesce ord.avgPrice ord.fillPrice)
              filledQty := filledQty }
          else
            { status := FillStatus.timeout, avgPrice := none, filledQty := 0 }
      | none => { status := FillStatus.timeout, avgPrice := none, filledQty := 0 }
  | p :: rest, finalFetch =>
      match p with
      | none => restPollPath requestedQty rest finalFetch
      | some ord =>
          let st := normalizeStatus ord.status
          if st = "MATCHED" ∨ st = "FILLED" then
            let pq := parseFilledQty ord
            { status := FillStatus.matched
              avgPrice := parsePrice (rvCoalesce ord.avgPrice ord.fillPrice)
              filledQty := clampFilledQty
                (some (if pq = 0 then requestedQty else pq)) requestedQty }
          else if st = "CANCELLED" then
            let filledQty := clampFilledQty (some (parseFilledQty ord)) requestedQty
            { status := if 0 < filledQty then FillStatus.partialFill
                        else FillStatus.cancelled
              avgPrice := parsePrice (rvCoalesce ord.avgPrice ord.fillPrice)
              filledQty := filledQty }
          else restPollPath requestedQty rest finalFetch

/-- `Executor._waitForFill(orderId, requestedQty, timeoutMs)`
(part_012 lines 228-374). The timeout parameters govern wall-clock waiting
only; which answers arrive before which deadline is encoded in the oracle. -/
def waitForFill (dryRun : Bool) (requestedQty : ℚ) (o : WaitOracle) :
    FillResult :=
  if dryRun then
    { status := FillStatus.matched, avgPrice := none, filledQty := requestedQty }
  else match o.ws with
  | some result =>
      if result.status = "MATCHED" then
        let wsFilledQty := clampFilledQty (rvNum result.filledQty) requestedQty
        if 0 < wsFilledQty then
          { status := FillStatus.matched
            avgPrice := parsePrice result.avgPrice
            filledQty := wsFilledQty
            fillSource := some "WS", qtyConfidence := some "high" }
        else
          -- WS says MATCHED without a usable size — reconcile once via REST.
          match o.getOrderOnce with
          | some ord =>
              let st := normalizeStatus ord.status
              let reconciledPrice := parsePrice
                (rvCoalesce ord.avgPrice (rvCoalesce ord.fillPrice result.avgPrice))
              if st = "MATCHED" ∨ st = "FILLED" then
                let filledQty := clampFilledQty (some (parseFilledQty ord)) requestedQty
                if 0 < filledQty then
                  { status := FillStatus.matched
                    avgPrice := reconciledPrice
                    filledQty := filledQty
                    fillSource := some "REST_RECONCILE"
                    qtyConfidence := some "reconciled" }
                else
                  { status := FillStatus.unknownMatchedQty
                    avgPrice := reconciledPrice
                    filledQty := 0
                    fillSource := some "REST_RECONCILE"
                    qtyConfidence := some "unknown" }
              else if st = "CANCELLED" then
                let filledQty := clampFilledQty (some (parseFilledQty ord)) requestedQty
                { status := if 0 < filledQty then FillStatus.partialFill
                            else FillStatus.cancelled
                  avgPrice := reconciledPrice
                  filledQty := filledQty
                  fillSource := some "REST_RECONCILE"
                  qtyConfidence := some (if 0 < filledQty then "reconciled" else "high") }
              else
                { status := FillStatus.unknownMatchedQty
                  avgPrice := parsePrice result.avgPrice
                  filledQty := 0
                  fillSource := some "WS", qtyConfidence := some "unknown" }
          | none =>
              { status := FillStatus.unknownMatchedQty
                avgPrice := parsePrice result.avgPrice
                filledQty := 0
                fillSource := some "WS", qtyConfidence := some "unknown" }
      else if result.status = "CANCELLED" then
        let filledQty := clampFilledQty (rvNum result.filledQty) requestedQty
        { status := if 0 < filledQty then FillStatus.partialFill
                    else FillStatus.cancelled
          avgPrice := parsePrice result.avgPrice
          filledQty := filledQty }
      else
        -- Push-channel timeout: one final REST check before giving up.
        match o.getOrderOnce with
        | some ord =>
            let st := normalizeStatus ord.status
            if st = "MATCHED" ∨ st = "FILLED" then
              let pq := parseFilledQty ord
              { status := FillStatus.matched
                avgPrice := parsePrice (rvCoalesce ord.avgPrice ord.fillPrice)
                filledQty := clampFilledQty
                  (some (if pq = 0 then requestedQty else pq)) requestedQty }
            else
              let filledQty := clampFilledQty (some (parseFilledQty ord)) requestedQty
              if 0 < filledQty then
                { status := FillStatus.partialFill
                  avgPrice := parsePrice (rvCoalesce ord.avgPrice ord.fillPrice)
                  filledQty := filledQty }
              else
                { status := FillStatus.timeout, avgPrice := none, filledQty := 0 }
        | none => { status := FillStatus.timeout, avgPrice := none, filledQty := 0 }
  | none => restPollPath requestedQty o.polls o.finalFetch

/-! ## Executor — state machine (src/unnamed/part_012) -/

inductive TradeStatus where
  | open
  | closing
  | closed
deriving Repr, DecidableEq

/-- A trade record as stored in `Executor.openOrders`. `orderStatus` is the
source's `trade.order.status` (`"SIMULATED"` in dry-run). Fields that only
feed logs or the dashboard (`currentMid`, `unrealizedPnl`, adverse-selection
checkpoints) are carried where the modelled code writes them. -/
structure Trade where
  id : String
  signal : Signal
  orderStatus : String
  entryPrice : ℚ
  tokenQty : ℚ
  size : ℚ
  initialSize : ℚ
  direction : String
  status : TradeStatus
  openTime : ℚ
  executionLatency : ℚ
  realizedPnl : Option ℚ := none
  pnl : Option ℚ := none
  exitPrice : Option ℚ := none
  exitTime : Option ℚ := none
  exitReason : Option String := none
  holdTime : Option ℚ := none
  estimatedExit : Bool := false
deriving Repr, DecidableEq

/-- `fillRateStats` counters. The source's `partial` field is named
`partialCount` here. -/
structure FillRateStats where
  attempted : Nat
  filled : Nat
  partialCount : Nat
  cancelled : Nat
  failed : Nat
deriving Repr, DecidableEq

/-- Mutable state of an `Executor` instance. Per-trade safety timers are
wall-clock resources and are outside the embedding; the event-routing table
`_tokenToTrades` is embedded (token id to list of trade ids). -/
structure ExecState where
  openOrders : List (String × Trade)
  pnlStats : RunningStats
  fillRateStats : FillRateStats
  fillTracker : List (String × Nat × Nat)
  executionLatencies : List ℚ
  tradeHistory : List Trade
  tokenToTrades : List (String × List String)
  risk : RiskState
deriving Repr, DecidableEq

/-- An externally visible exchange order action issued by the executor. -/
inductive ExchangeAction where
  | place (tokenId : String) (side : String) (price : ℚ) (size : ℚ)
  | cancel (orderId : String)
deriving Repr, DecidableEq

/-- `FillTracker._spreadBucket` (part_012 lines 72-81). `contractPrice` and
`entryPrice` are always-present numbers in the embedding, so the null-guard
of the source reduces to the computed spread. -/
def spreadBucket (sig : Signal) : String :=
  let spread := |sig.entryPrice - sig.contractPrice| * 2
  let s := sig.spreadF.getD spread
  if s < 2/100 then "narrow" else if s ≤ 5/100 then "medium" else "wide"

/-- `FillTracker._depthBucket` (part_012 lines 83-87). -/
def depthBucket (sig : Signal) : String :=
  let depth := sig.availableLiquidity.getD 0
  if depth < 20 then "thin" else if depth ≤ 100 then "ok" else "deep"

/-- `FillTracker.record(signal, fillStatus)` (part_012 lines 94-102):
bucket keyed by spread and depth, counting (filled, total). -/
def ftRecord (ft : List (String × Nat × Nat)) (sig : Signal)
    (st : FillStatus) : List (String × Nat × Nat) :=
  let key := spreadBucket sig ++ ":" ++ depthBucket sig
  let bucket := (mapGet ft key).getD (0, 0)
  let filled := if st = FillStatus.matched ∨ st = FillStatus.partialFill then
      bucket.1 + 1 else bucket.1
  mapSet ft key (filled, bucket.2 + 1)

/-- `Executor._cleanupMonitor(trade)` (part_012 lines 484-500), restricted to
the `_tokenToTrades` routing table (the cleared interval timer is a
wall-clock resource). -/
def cleanupMonitor (s : ExecState) (t : Trade) : ExecState :=
  match mapGet s.tokenToTrades t.signal.tokenId with
  | none => s
  | some ids =>
      let ids' := ids.filter (fun i => i ≠ t.id)
      if ids'.isEmpty then
        { s with tokenToTrades := mapDel s.tokenToTrades t.signal.tokenId }
      else
        { s with tokenToTrades := mapSet s.tokenToTrades t.signal.tokenId ids' }

/-- The `MAX_TRADE_HISTORY` rolling-window constant (part_012 line 16). -/
def maxTradeHistory : Nat := 500

/-- `Executor._finalizeClose(trade, {reason, exitPrice, pnl, estimated})`
(part_012 lines 162-208): the single close path — mark CLOSED, remove from
tracking, book P&L with the risk ledger, push statistics and history.
Always returns `true`. -/
def finalizeClose (s : ExecState) (t : Trade) (reason : String)
    (exitPrice pnl : ℚ) (estimated : Bool) (now : ℚ) : ExecState × Bool :=
  let s := cleanupMonitor s t
  let totalPnl := t.realizedPnl.getD 0 + pnl
  let t := { t with
    status := TradeStatus.closed
    pnl := some totalPnl
    exitPrice := some exitPrice
    exitTime := some now
    exitReason := some reason
    holdTime := some (now - t.openTime)
    estimatedExit := estimated }
  let s := { s with openOrders := mapDel s.openOrders t.id }
  let s := { s with risk := closePosition s.risk t.id pnl }
  let s := { s with pnlStats := rsPush s.pnlStats totalPnl }
  let hist := s.tradeHistory ++ [t]
  let hist := if maxTradeHistory < hist.length then hist.drop 1 else hist
  ({ s with tradeHistory := hist }, true)

/-- Write back the (source-mutable, shared-by-reference) trade object into
the executor's open-order map. -/
def setTrade (s : ExecState) (t : Trade) : ExecState :=
  { s with openOrders := mapSet s.openOrders t.id t }

/-- The `1e-8` exhaustion epsilon of part_012 line 848. -/
def exhaustEps : ℚ := 1 / 100000000

/-- `Executor._exitPosition(trade, reason, markPrice)`
(part_012 lines 780-881). Oracle: `placeSell` is the sell `placeOrder`
answer (`none` = throws), `fo` drives the inner `_waitForFill`. Returns the
new state, the source's boolean result, and the order actions issued. -/
def exitPosition (dryRunWait : Bool) (s : ExecState) (t : Trade)
    (reason : String) (markPrice : ℚ) (placeSell : Option String)
    (fo : WaitOracle) (now : ℚ) : ExecState × Bool × List ExchangeAction :=
  if t.status = TradeStatus.closing ∨ t.status = TradeStatus.closed then
    (s, false, [])
  else if (mapGet s.openOrders t.id).isNone then (s, false, [])
  else
    let t := { t with status := TradeStatus.closing }
    let s := setTrade s t
    if t.orderStatus = "SIMULATED" then
      let pnl := (markPrice - t.entryPrice) * t.tokenQty
      let r := finalizeClose s t reason markPrice pnl false now
      (r.1, r.2, [])
    else
      match placeSell with
      | none =>
          -- placeOrder threw: alert, revert to OPEN, report failure.
          (setTrade s { t with status := TradeStatus.open }, false, [])
      | some exitOrderId =>
          let acts := [ExchangeAction.place t.signal.tokenId "SELL" markPrice t.tokenQty]
          let fill := waitForFill dryRunWait t.tokenQty fo
          if fill.status = FillStatus.partialFill ∧ 0 < fill.filledQty then
            let exitPx := fill.avgPrice.getD markPrice
            let filledQty := min fill.filledQty t.tokenQty
            let realizedPnl := (exitPx - t.entryPrice) * filledQty
            let realizedNotional := filledQty * t.entryPrice
            let t := { t with
              realizedPnl := some (t.realizedPnl.getD 0 + realizedPnl)
              tokenQty := max 0 (t.tokenQty - filledQty)
              size := max 0 (t.size - realizedNotional) }
            let s := setTrade s t
            let s := { s with
              risk := applyPartialClose s.risk t.id realizedNotional realizedPnl }
            if t.tokenQty ≤ exhaustEps ∨ t.size ≤ exhaustEps then
              let r := finalizeClose s t (reason ++ "_PARTIAL_EXHAUSTED")
                exitPx 0 false now
              (r.1, r.2, acts)
            else
              (setTrade s { t with status := TradeStatus.open }, false,
               acts ++ [ExchangeAction.cancel exitOrderId])
          else if fill.status ≠ FillStatus.matched then
            (setTrade s { t with status := TradeStatus.open }, false,
             acts ++ [ExchangeAction.cancel exitOrderId])
          else
            let actualExitPrice := fill.avgPrice.getD markPrice
            let pnl := (actualExitPrice - t.entryPrice) * t.tokenQty
            let r := finalizeClose s t reason actualExitPrice pnl false now
            (r.1, r.2, acts)

/-! ## Executor — entry (`execute`, part_012 lines 502-696) -/

/-- A book snapshot from `fetchOrderbook`. -/
structure Book where
  mid : Option ℚ
  bestBid : Option ℚ
  bestAsk : Option ℚ
deriving Repr, DecidableEq

/-- The order object returned by `placeOrder`. -/
structure OrderRec where
  id : String
  status : String
deriving Repr, DecidableEq

/-- Oracle feeds for one `execute` call: successive `placeOrder` answers
(`none` = the call throws), successive `_waitForFill` oracles, and
successive `fetchOrderbook` answers for maker reprices (`none` = throws or
a `null` book). Exhausted feeds behave as a throwing/empty exchange. -/
structure Feeds where
  places : List (Option OrderRec)
  fills : List WaitOracle
  books : List (Option Book)
deriving Repr, DecidableEq

def Feeds.popPlace (f : Feeds) : Option OrderRec × Feeds :=
  match f.places with
  | [] => (none, f)
  | p :: rest => (p, { f with places := rest })

def emptyWaitOracle : WaitOracle :=
  { ws := none, getOrderOnce := none, polls := [], finalFetch := none }

def Feeds.popFill (f : Feeds) : WaitOracle × Feeds :=
  match f.fills with
  | [] => (emptyWaitOracle, f)
  | p :: rest => (p, { f with fills := rest })

def Feeds.popBook (f : Feeds) : Option Book × Feeds :=
  match f.books with
  | [] => (none, f)
  | p :: rest => (p, { f with books := rest })

/-- `Executor._selectOrderStrategy(signal)` (part_012 lines 384-401):
returns `(isMaker, price)`. -/
def selectOrderStrategy (sig : Signal) : Bool × ℚ :=
  let secsToExpiry := sig.hoursToExpiry * 3600
  let actualSpread := sig.spreadF.getD (|sig.entryPrice - sig.contractPrice| * 2)
  if 3/100 ≤ actualSpread ∧ 120 < secsToExpiry then
    let makerPrice := if sig.direction = "BUY_YES" then sig.contractPrice + 1/100
                      else sig.contractPrice - 1/100
    (true, max (1/100) (min (99/100) makerPrice))
  else
    (false, sig.entryPrice)

/-- The maker reprice loop of `execute` (part_012 lines 540-571):
while the order timed out with zero fills and fewer than `MAX_REPRICES = 2`
reprices were used, cancel the stale order, move the price one more cent
toward the taker side using a fresh book (falling back to the original
maker price when the book fetch fails or is `null`), place a new order and
wait again. `budget` counts remaining reprices; `Except.error` propagates a
thrown `placeOrder` to `execute`'s catch. -/
def makerLoop (dryRun : Bool) (sig : Signal) (entryPrice : ℚ) :
    Nat → OrderRec → FillResult → List ExchangeAction → Feeds →
    Except (List ExchangeAction)
      (OrderRec × FillResult × List ExchangeAction × Feeds)
  | 0, order, fill, acts, f => Except.ok (order, fill, acts, f)
  | b + 1, order, fill, acts, f =>
      if fill.status = FillStatus.timeout ∧ fill.filledQty = 0 then
        let acts := acts ++ [ExchangeAction.cancel order.id]
        let reprices : ℚ := (2 - b : ℕ)
        let pb := f.popBook
        let f := pb.2
        let newPrice := match pb.1 with
          | some book =>
              let np := if sig.direction = "BUY_YES" then
                  min (book.bestAsk.getD entryPrice) (entryPrice + (1/100) * reprices)
                else
                  max (book.bestBid.getD entryPrice) (entryPrice - (1/100) * reprices)
              max (1/100) (min (99/100) np)
          | none => entryPrice
        let repriceQty := sig.size / newPrice
        let pp := f.popPlace
        let f := pp.2
        match pp.1 with
        | none => Except.error acts
        | some order2 =>
            let acts := acts ++
              [ExchangeAction.place sig.tokenId "BUY" newPrice repriceQty]
            let pf := f.popFill
            makerLoop dryRun sig entryPrice b order2
              (waitForFill dryRun repriceQty pf.1) acts pf.2
      else Except.ok (order, fill, acts, f)

/-- The fill-confirmation block of `execute` for live orders
(part_012 lines 536-588): taker orders wait once; maker orders run the
reprice loop and, if still fully unfilled, fall through to a taker order at
the signal's entry price. Returns the final order, its fill result and the
actions issued; `Except.error` = a `placeOrder` threw. -/
def entryFillPhase (dryRun : Bool) (sig : Signal) (isMaker : Bool)
    (entryPrice requestedQty : ℚ) (order0 : OrderRec) (f : Feeds) :
    Except (List ExchangeAction) (OrderRec × FillResult × List ExchangeAction) :=
  if isMaker then
    let pf0 := f.popFill
    let fill0 := waitForFill dryRun requestedQty pf0.1
    match makerLoop dryRun sig entryPrice 2 order0 fill0 [] pf0.2 with
    | Except.error a => Except.error a
    | Except.ok (order1, fill1, acts1, f) =>
        if fill1.status = FillStatus.timeout ∧ fill1.filledQty = 0 then
          let acts1 := acts1 ++ [ExchangeAction.cancel order1.id]
          let takeQty := sig.size / sig.entryPrice
          let pp := f.popPlace
          match pp.1 with
          | none => Except.error acts1
          | some order2 =>
              let acts1 := acts1 ++
                [ExchangeAction.place sig.tokenId "BUY" sig.entryPrice takeQty]
              Except.ok (order2, waitForFill dryRun takeQty (pp.2.popFill).1, acts1)
        else Except.ok (order1, fill1, acts1)
  else
    Except.ok (order0, waitForFill dryRun requestedQty (f.popFill).1, [])

/-- Result of one `execute` call: new state, the opened trade (the source's
return value, `null` on abort), order actions, and alert messages. -/
structure ExecOut where
  state : ExecState
  trade : Option Trade
  acts : List ExchangeAction
  alerts : List String
deriving Repr, DecidableEq

/-- `executionLatencies.push(latency)` with the 100-entry rolling window
(part_012 lines 528-529). -/
def pushLatency (s : ExecState) (latency : ℚ) : ExecState :=
  let ls := s.executionLatencies ++ [latency]
  { s with executionLatencies := if 100 < ls.length then ls.drop 1 else ls }

/-- The trade-record construction and registration tail of `execute`
(part_012 lines 631-686): build the trade, add it to `openOrders`, register
the ledger position, and start monitoring (`_monitorPosition`'s routing
registration; its timers are wall-clock resources). -/
def openNewTrade (s : ExecState) (sig : Signal) (order : OrderRec)
    (actualEntryPrice actualTokenQty latency now : ℚ)
    (acts : List ExchangeAction) : ExecOut :=
  let actualDollarSize := actualTokenQty * actualEntryPrice
  let trade : Trade := {
    id := order.id
    signal := sig
    orderStatus := order.status
    entryPrice := actualEntryPrice
    tokenQty := actualTokenQty
    size := actualDollarSize
    initialSize := actualDollarSize
    direction := sig.direction
    status := TradeStatus.open
    openTime := now
    executionLatency := latency }
  let s := { s with openOrders := mapSet s.openOrders order.id trade }
  let pin : PosIn := { id := order.id, side := sig.direction,
                       size := actualDollarSize, entryPrice := actualEntryPrice }
  let s := { s with risk := openPosition s.risk pin now }
  let ids := (mapGet s.tokenToTrades sig.tokenId).getD []
  let s := { s with tokenToTrades := mapSet s.tokenToTrades sig.tokenId (ids ++ [trade.id]) }
  { state := s, trade := some trade, acts := acts, alerts := [] }

/-- `Executor.execute(signal)` (part_012 lines 502-696). `dryRun` is
`CONFIG.execution.dryRun`; `latency` is the measured placement latency;
`now` stands for the `Date.now()` reads. A `none` from the `places` feed is
a thrown `placeOrder`, landing in the source's catch-all
(`fillRateStats.failed++`, return `null`). -/
def execute (dryRun : Bool) (s : ExecState) (sig : Signal) (f : Feeds)
    (latency now : ℚ) : ExecOut :=
  let s := { s with fillRateStats :=
    { s.fillRateStats with attempted := s.fillRateStats.attempted + 1 } }
  let strat := selectOrderStrategy sig
  let entryPrice := strat.2
  let requestedQty := sig.size / entryPrice
  let pp0 := f.popPlace
  let f := pp0.2
  match pp0.1 with
  | none =>
      ⟨{ s with fillRateStats :=
         { s.fillRateStats with failed := s.fillRateStats.failed + 1 } },
       none, [], []⟩
  | some order0 =>
      let acts := [ExchangeAction.place sig.tokenId "BUY" entryPrice requestedQty]
      let s := pushLatency s latency
      if order0.status = "SIMULATED" then
        let s := { s with fillRateStats :=
          { s.fillRateStats with filled := s.fillRateStats.filled + 1 } }
        openNewTrade s sig order0 entryPrice requestedQty latency now acts
      else
        match entryFillPhase dryRun sig strat.1 entryPrice requestedQty order0 f with
        | Except.error actsE =>
            ⟨{ s with fillRateStats :=
               { s.fillRateStats with failed := s.fillRateStats.failed + 1 } },
             none, acts ++ actsE, []⟩
        | Except.ok (orderF, fill, acts2) =>
            let s := { s with fillTracker := ftRecord s.fillTracker sig fill.status }
            let acts := acts ++ acts2
            if fill.status = FillStatus.matched then
              let s := { s with fillRateStats :=
                { s.fillRateStats with filled := s.fillRateStats.filled + 1 } }
              openNewTrade s sig orderF (fill.avgPrice.getD entryPrice)
                fill.filledQty latency now acts
            else if fill.status = FillStatus.unknownMatchedQty then
              ⟨{ s with fillRateStats :=
                 { s.fillRateStats with failed := s.fillRateStats.failed + 1 } },
               none, acts ++ [ExchangeAction.cancel orderF.id],
               ["matched fill with unknown quantity - entry aborted"]⟩
            else if fill.status = FillStatus.partialFill ∧ 0 < fill.filledQty then
              let s := { s with fillRateStats :=
                { s.fillRateStats with partialCount := s.fillRateStats.partialCount + 1 } }
              openNewTrade s sig orderF (fill.avgPrice.getD entryPrice)
                fill.filledQty latency now (acts ++ [ExchangeAction.cancel orderF.id])
            else
              ⟨{ s with fillRateStats :=
                 { s.fillRateStats with cancelled := s.fillRateStats.cancelled + 1 } },
               none, acts ++ [ExchangeAction.cancel orderF.id], []⟩

/-! ## Concrete sample values (used by witnesses and counterexamples) -/

/-- A fresh ledger with a $1000 bankroll and no open positions. -/
def s1000 : RiskState :=
  { bankroll := 1000, peakBankroll := 1000, openPositions := [],
    lastTradeTime := 0, dailyPnl := 0, dailyTrades := 0,
    dailyHighWatermark := 1000, dailyResetTime := 1000000, killed := false,
    killReason := none }

/-- The spec.md section 8 example trace: open sizes 10 and 20, close the
first with +2 P&L, partially close the second for 5 notional + 0.5 P&L,
close the 15 remainder with −1 P&L. -/
def exOps : List RiskOp :=
  [ RiskOp.openOp ⟨"a", "BUY_YES", 10, 1/2⟩ 1,
    RiskOp.openOp ⟨"b", "BUY_YES", 20, 1/2⟩ 2,
    RiskOp.closeOp "a" 2,
    RiskOp.partialCloseOp "b" 5 (1/2),
    RiskOp.closeOp "b" (-1) ]

def sigA : Signal :=
  { label := "BTC-UP-1H", direction := "BUY_YES", tokenId := "tok1",
    entryPrice := 1/2, contractPrice := 1/2, size := 10, edge := 1/10,
    modelProb := 6/10, hoursToExpiry := 1/100, spreadF := none,
    availableLiquidity := some 100, estimatedFillProb := some 1 }

def tradeA : Trade :=
  { id := "ord1", signal := sigA, orderStatus := "LIVE", entryPrice := 1/2,
    tokenQty := 20, size := 10, initialSize := 10, direction := "BUY_YES",
    status := TradeStatus.open, openTime := 0, executionLatency := 5 }

def tradeClosedA : Trade := { tradeA with status := TradeStatus.closed }

def execA : ExecState :=
  { openOrders := [("ord1", tradeA)], pnlStats := RunningStats.init,
    fillRateStats := ⟨0, 0, 0, 0, 0⟩, fillTracker := [],
    executionLatencies := [], tradeHistory := [],
    tokenToTrades := [("tok1", ["ord1"])], risk := s1000 }

/-! ## Helper lemmas -/

theorem applyRiskOp_bankroll (s : RiskState) (op : RiskOp) :
    (applyRiskOp s op).bankroll
      = s.bankroll - opDebit s op + opCapitalReturned s op + opRealizedPnl s op := by
  cases op with
  | openOp t now =>
      simp only [applyRiskOp, openPosition, opDebit, opCapitalReturned, opRealizedPnl]
      ring
  | closeOp id pnl =>
      simp only [applyRiskOp, closePosition, opDebit, opCapitalReturned, opRealizedPnl]
      cases h : mapGet s.openPositions id <;> simp [h]
  | partialCloseOp id n p =>
      simp only [applyRiskOp, applyPartialClose, opDebit, opCapitalReturned, opRealizedPnl]
      cases h : mapGet s.openPositions id <;> simp [h]

theorem runRiskOps_bankroll (s : RiskState) (ops : List RiskOp) :
    (runRiskOps s ops).bankroll
      = s.bankroll - tracedDebits s ops + tracedCapitalReturned s ops
        + tracedRealizedPnl s ops := by
  induction ops generalizing s with
  | nil =>
      simp [runRiskOps, tracedDebits, tracedCapitalReturned, tracedRealizedPnl]
  | cons op rest ih =>
      simp only [runRiskOps, tracedDebits, tracedCapitalReturned, tracedRealizedPnl]
      rw [ih, applyRiskOp_bankroll]
      ring

/-! ## Claims -/

/-- Claim C1 — bankroll conservation: for every sequence of `openPosition`,
`applyPartialClose` and `closePosition` calls, the final bankroll equals the
initial bankroll minus the sizes debited at open, plus the capital returned
(remaining size on close, realized notional on registered partial close),
plus all realized P&L; and on the spec's example trace (start 1000, open 10
and 20, close +2, partial close 5 notional + 0.5 P&L, close remainder −1)
the final bankroll is 1001.5 and the net change equals total realized
P&L. -/
theorem C1_bankroll_conservation :
    (∀ (s : RiskState) (ops : List RiskOp),
       (runRiskOps s ops).bankroll
         = s.bankroll - tracedDebits s ops + tracedCapitalReturned s ops
           + tracedRealizedPnl s ops)
    ∧ (runRiskOps s1000 exOps).bankroll = 2003/2
    ∧ (runRiskOps s1000 exOps).bankroll - s1000.bankroll
        = tracedRealizedPnl s1000 exOps := by
  refine ⟨runRiskOps_bankroll, ?_, ?_⟩ <;>
    norm_num [runRiskOps, applyRiskOp, openPosition, closePosition,
      applyPartialClose, mapGet, mapSet, mapDel, tracedRealizedPnl,
      opRealizedPnl, s1000, exOps]

/-- Claim C2 — exit idempotence guard: `_exitPosition` on a trade already
CLOSING or CLOSED, or no longer tracked in the open-order map, returns
`false` and leaves the executor and ledger state unchanged: no sell order
is placed, no trade-history entry is appended, no P&L statistic is pushed
and no RiskManager method is called. -/
theorem C2_exit_idempotence_guard (dryRunWait : Bool) (s : ExecState)
    (t : Trade) (reason : String) (markPrice : ℚ) (placeSell : Option String)
    (fo : WaitOracle) (now : ℚ)
    (h : t.status = TradeStatus.closing ∨ t.status = TradeStatus.closed
         ∨ mapGet s.openOrders t.id = none) :
    exitPosition dryRunWait s t reason markPrice placeSell fo now
      = (s, false, []) := by
  unfold exitPosition
  rcases h with h | h | h
  · rw [if_pos (Or.inl h)]
  · rw [if_pos (Or.inr h)]
  · by_cases hg : t.status = TradeStatus.closing ∨ t.status = TradeStatus.closed
    · rw [if_pos hg]
    · rw [if_neg hg, if_pos]
      simp [h]

/-- Witness for C2 at a concrete closed trade. -/
theorem C2_exit_idempotence_guard_witness :
    (tradeClosedA.status = TradeStatus.closing
       ∨ tradeClosedA.status = TradeStatus.closed
       ∨ mapGet execA.openOrders tradeClosedA.id = none)
    ∧ exitPosition false execA tradeClosedA "STOP_LOSS" (6/10) none
        emptyWaitOracle 3 = (execA, false, []) :=
  ⟨Or.inr (Or.inl rfl),
   C2_exit_idempotence_guard false execA tradeClosedA "STOP_LOSS" (6/10)
     none emptyWaitOracle 3 (Or.inr (Or.inl rfl))⟩

/-- Claim C9 — unknown-id close is a no-op: `closePosition` and
`applyPartialClose` on an id with no registered position leave the ledger
state (bankroll, dailyPnl, watermarks, position set) entirely unchanged. -/
theorem C9_unknown_id_close_noop (s : RiskState) (id : String)
    (pnl realizedNotional realizedPnl : ℚ)
    (h : mapGet s.openPositions id = none) :
    closePosition s id pnl = s
      ∧ applyPartialClose s id realizedNotional realizedPnl = s := by
  constructor
  · simp [closePosition, h]
  · simp [applyPartialClose, h]

/-- Witness for C9 on an id absent from a concrete ledger. -/
theorem C9_unknown_id_close_noop_witness :
    mapGet s1000.openPositions "ghost" = none
    ∧ (closePosition s1000 "ghost" 5 = s1000
       ∧ applyPartialClose s1000 "ghost" 3 2 = s1000) :=
  ⟨rfl, C9_unknown_id_close_noop s1000 "ghost" 5 3 2 rfl⟩

def posB : Position :=
  { id := "b", side := "BUY_YES", size := 10, entryPrice := 1/2, openTime := 0 }

def sPosB : RiskState := { s1000 with openPositions := [("b", posB)] }

/-- A push-channel answer: sell order CANCELLED with 5 tokens filled. -/
def partialFillOracle : WaitOracle :=
  { ws := some { status := "CANCELLED", filledQty := RawVal.val 5,
                 avgPrice := RawVal.val (11/20) },
    getOrderOnce := none, polls := [], finalFetch := none }

theorem cleanupMonitor_openOrders (s : ExecState) (t : Trade) :
    (cleanupMonitor s t).openOrders = s.openOrders := by
  unfold cleanupMonitor
  cases mapGet s.tokenToTrades t.signal.tokenId with
  | none => rfl
  | some ids => dsimp only; split <;> rfl

theorem finalizeClose_openOrders_get (s : ExecState) (t : Trade)
    (reason : String) (exitPrice pnl : ℚ) (estimated : Bool) (now : ℚ) :
    mapGet ((finalizeClose s t reason exitPrice pnl estimated now).1).openOrders
      t.id = none := by
  simp only [finalizeClose]
  exact mapGet_del_self _ _

/-- Claim C10 — remaining exposure never goes negative: a partial close
clamps the tracked ledger position's size at zero
(`pos.size := max 0 (pos.size − realizedNotional)`), and the executor's
partial-exit path clamps the trade's `tokenQty` and `size` at zero, so a
realized notional or filled quantity exceeding the remainder can never
drive them below 0. -/
theorem C10_remaining_exposure_nonneg :
    (∀ (s : RiskState) (id : String) (n p : ℚ) (pos : Position),
       mapGet s.openPositions id = some pos →
       mapGet (applyPartialClose s id n p).openPositions id
         = some { pos with size := max 0 (pos.size - n) }
       ∧ (0:ℚ) ≤ max 0 (pos.size - n))
    ∧ (∀ (dryRunWait : Bool) (s : ExecState) (t : Trade) (reason : String)
         (markPrice : ℚ) (placeSell : Option String) (fo : WaitOracle) (now : ℚ),
       0 ≤ t.tokenQty → 0 ≤ t.size →
       (∀ v, mapGet s.openOrders t.id = some v → 0 ≤ v.tokenQty ∧ 0 ≤ v.size) →
       ∀ t', mapGet ((exitPosition dryRunWait s t reason markPrice placeSell
                 fo now).1).openOrders t.id = some t' →
         0 ≤ t'.tokenQty ∧ 0 ≤ t'.size) := by
  constructor
  · intro s id n p pos h
    refine ⟨?_, le_max_left 0 _⟩
    simp only [applyPartialClose, h]
    exact mapGet_set_self ..
  · intro dryRunWait s t reason markPrice placeSell fo now htq hsz hstored t' ht'
    rw [exitPosition] at ht'
    by_cases h1 : t.status = TradeStatus.closing ∨ t.status = TradeStatus.closed
    · rw [if_pos h1] at ht'
      exact hstored t' ht'
    · rw [if_neg h1] at ht'
      by_cases h2 : (mapGet s.openOrders t.id).isNone
      · rw [if_pos h2] at ht'
        exact hstored t' ht'
      · rw [if_neg h2] at ht'
        dsimp only at ht'
        by_cases h3 : t.orderStatus = "SIMULATED"
        · rw [if_pos h3] at ht'
          rw [finalizeClose_openOrders_get] at ht'
          exact absurd ht' (by simp)
        · rw [if_neg h3] at ht'
          split at ht'
          · simp only [setTrade, mapGet_set_self, Option.some.injEq] at ht'
            subst ht'
            exact ⟨htq, hsz⟩
          · rename_i exitOrderId
            by_cases h4 : (waitForFill dryRunWait t.tokenQty fo).status
                  = FillStatus.partialFill
                  ∧ 0 < (waitForFill dryRunWait t.tokenQty fo).filledQty
            · rw [if_pos h4] at ht'
              split at ht'
              · rw [finalizeClose_openOrders_get] at ht'
                exact absurd ht' (by simp)
              · simp only [setTrade, mapGet_set_self, Option.some.injEq] at ht'
                subst ht'
                exact ⟨le_max_left 0 _, le_max_left 0 _⟩
            · rw [if_neg h4] at ht'
              by_cases h5 : (waitForFill dryRunWait t.tokenQty fo).status
                  ≠ FillStatus.matched
              · rw [if_pos h5] at ht'
                simp only [setTrade, mapGet_set_self, Option.some.injEq] at ht'
                subst ht'
                exact ⟨htq, hsz⟩
              · rw [if_neg h5] at ht'
                dsimp only at ht'
                rw [finalizeClose_openOrders_get] at ht'
                exact absurd ht' (by simp)

theorem clampFilledQty_bounds (v : Option ℚ) (req : ℚ) (h : 0 ≤ req) :
    0 ≤ clampFilledQty v req ∧ clampFilledQty v req ≤ req := by
  cases v with
  | none => exact ⟨le_refl 0, h⟩
  | some q =>
      simp only [clampFilledQty]
      split
      · exact ⟨le_refl 0, h⟩
      · rename_i hq
        exact ⟨le_min (le_of_lt (not_le.mp hq)) h, min_le_right q req⟩

theorem restPollPath_filledQty_bounds (req : ℚ) (h : 0 ≤ req) :
    ∀ (polls : List (Option OrderResp)) (ff : Option OrderResp),
      0 ≤ (restPollPath req polls ff).filledQty
      ∧ (restPollPath req polls ff).filledQty ≤ req := by
  intro polls
  induction polls with
  | nil =>
      intro ff
      cases ff with
      | none => exact ⟨le_refl 0, h⟩
      | some ord =>
          simp only [restPollPath]
          split
          · exact clampFilledQty_bounds _ _ h
          · exact ⟨le_refl 0, h⟩
  | cons p rest ih =>
      intro ff
      cases p with
      | none => exact ih ff
      | some ord =>
          simp only [restPollPath]
          repeat' split
          all_goals first
            | exact clampFilledQty_bounds _ _ h
            | exact ⟨le_refl 0, h⟩
            | exact ih ff

/-- Claim C3 — fill-quantity clamp: for every requested quantity and every
exchange answer (including corrupted ones: negative remaining sizes implying
an over-fill, non-numeric fields, quantities exceeding the request), the
filled quantity reported by `_waitForFill` lies in `[0, requestedQty]`. -/
theorem C3_fill_qty_clamp (dryRun : Bool) (requestedQty : ℚ) (o : WaitOracle)
    (h : 0 ≤ requestedQty) :
    0 ≤ (waitForFill dryRun requestedQty o).filledQty
    ∧ (waitForFill dryRun requestedQty o).filledQty ≤ requestedQty := by
  simp only [waitForFill]
  split
  · exact ⟨h, le_refl _⟩
  · split
    · repeat' split
      all_goals first
        | exact clampFilledQty_bounds _ _ h
        | exact ⟨le_refl 0, h⟩
    · exact restPollPath_filledQty_bounds requestedQty h _ _

/-- Reduction of `_waitForFill` to its REST-reconciliation branch: push
channel connected, push status MATCHED, but the push quantity unusable
(missing, invalid, or non-positive after clamping). -/
theorem waitForFill_reconcile_eq (requestedQty : ℚ) (o : WaitOracle)
    (w : WsResult) (hws : o.ws = some w) (hst : w.status = "MATCHED")
    (hz : clampFilledQty (rvNum w.filledQty) requestedQty = 0) :
    waitForFill false requestedQty o
      = (match o.getOrderOnce with
         | some ord =>
             let st := normalizeStatus ord.status
             let reconciledPrice := parsePrice
               (rvCoalesce ord.avgPrice (rvCoalesce ord.fillPrice w.avgPrice))
             if st = "MATCHED" ∨ st = "FILLED" then
               let filledQty := clampFilledQty (some (parseFilledQty ord)) requestedQty
               if 0 < filledQty then
                 { status := FillStatus.matched, avgPrice := reconciledPrice,
                   filledQty := filledQty, fillSource := some "REST_RECONCILE",
                   qtyConfidence := some "reconciled" }
               else
                 { status := FillStatus.unknownMatchedQty, avgPrice := reconciledPrice,
                   filledQty := 0, fillSource := some "REST_RECONCILE",
                   qtyConfidence := some "unknown" }
             else if st = "CANCELLED" then
               let filledQty := clampFilledQty (some (parseFilledQty ord)) requestedQty
               { status := if 0 < filledQty then FillStatus.partialFill
                           else FillStatus.cancelled,
                 avgPrice := reconciledPrice, filledQty := filledQty,
                 fillSource := some "REST_RECONCILE",
                 qtyConfidence := some (if 0 < filledQty then "reconciled" else "high") }
             else
               { status := FillStatus.unknownMatchedQty,
                 avgPrice := parsePrice w.avgPrice, filledQty := 0,
                 fillSource := some "WS", qtyConfidence := some "unknown" }
         | none =>
             { status := FillStatus.unknownMatchedQty,
               avgPrice := parsePrice w.avgPrice, filledQty := 0,
               fillSource := some "WS", qtyConfidence := some "unknown" }) := by
  simp only [waitForFill, hws, hst, Bool.false_eq_true, if_false, reduceIte]
  rw [if_neg (by rw [hz]; exact lt_irrefl 0)]

/-- The REST reconciliation answer the C4 counterexample relies on: the order
was CANCELLED with nothing filled (remaining equals total size). -/
def cancelledNoFillResp : OrderResp :=
  { status := some "CANCELLED", remainingSize := RawVal.val 10,
    remaining := RawVal.missing, sizeRemaining := RawVal.missing,
    size := RawVal.val 10, makerAmount := RawVal.missing,
    avgPrice := RawVal.missing, fillPrice := RawVal.missing }

/-- C4 counterexample oracle: push reports MATCHED with no quantity, REST
reconciliation reports CANCELLED with zero filled. -/
def c4Oracle : WaitOracle :=
  { ws := some { status := "MATCHED", filledQty := RawVal.missing,
                 avgPrice := RawVal.missing },
    getOrderOnce := some cancelledNoFillResp, polls := [], finalFetch := none }

/-- Counterexample to claim C4 as stated: the push channel reports MATCHED
with no usable quantity, and the single REST reconciliation call also cannot
determine a positive quantity (it reports the order CANCELLED with zero
filled) — yet `_waitForFill` returns status CANCELLED, not
UNKNOWN_MATCHED_QTY as the claim requires whenever "REST also cannot
determine a positive quantity". -/
theorem C4_push_fill_reconciliation_counterexample :
    clampFilledQty (rvNum (RawVal.missing)) 10 = 0
    ∧ clampFilledQty (some (parseFilledQty cancelledNoFillResp)) 10 = 0
    ∧ (waitForFill false 10 c4Oracle).status = FillStatus.cancelled
    ∧ (waitForFill false 10 c4Oracle).status ≠ FillStatus.unknownMatchedQty := by
  have hclamp : clampFilledQty (some (parseFilledQty cancelledNoFillResp)) 10 = 0 := by
    norm_num [clampFilledQty, parseFilledQty, cancelledNoFillResp, rvNum, rvCoalesce]
  have heq := waitForFill_reconcile_eq 10 c4Oracle
    { status := "MATCHED", filledQty := RawVal.missing, avgPrice := RawVal.missing }
    rfl rfl rfl
  have hstatus : (waitForFill false 10 c4Oracle).status = FillStatus.cancelled := by
    rw [heq]
    dsimp only [c4Oracle]
    rw [if_neg (by decide), if_pos (by decide), hclamp, if_neg (lt_irrefl 0)]
  refine ⟨rfl, hclamp, hstatus, ?_⟩
  rw [hstatus]
  decide

/-- Claim C4 (amended) — push-fill reconciliation: when the push channel
reports MATCHED, the push quantity is used (source WS) exactly when it is
present, valid and positive after clamping; otherwise one REST
reconciliation call decides: a MATCHED/FILLED answer with a determinable
positive quantity is used with fillSource REST_RECONCILE; a MATCHED/FILLED
answer without one, any status other than MATCHED/FILLED/CANCELLED, or a
failed call yields UNKNOWN_MATCHED_QTY with filledQty 0; a CANCELLED answer
yields PARTIAL with the reconciled quantity when positive and CANCELLED
with filledQty 0 otherwise (this CANCELLED carve-out is the amendment — the
claim as stated required UNKNOWN_MATCHED_QTY there). -/
theorem C4_push_fill_reconciliation (requestedQty : ℚ) (o : WaitOracle)
    (w : WsResult) (hws : o.ws = some w) (hst : w.status = "MATCHED") :
    (0 < clampFilledQty (rvNum w.filledQty) requestedQty →
       waitForFill false requestedQty o
         = { status := FillStatus.matched, avgPrice := parsePrice w.avgPrice,
             filledQty := clampFilledQty (rvNum w.filledQty) requestedQty,
             fillSource := some "WS", qtyConfidence := some "high" })
    ∧ (clampFilledQty (rvNum w.filledQty) requestedQty = 0 →
       (o.getOrderOnce = none →
          (waitForFill false requestedQty o).status = FillStatus.unknownMatchedQty
          ∧ (waitForFill false requestedQty o).filledQty = 0)
       ∧ (∀ ord, o.getOrderOnce = some ord →
           ((normalizeStatus ord.status = "MATCHED"
               ∨ normalizeStatus ord.status = "FILLED") →
              (0 < clampFilledQty (some (parseFilledQty ord)) requestedQty →
                 (waitForFill false requestedQty o).status = FillStatus.matched
                 ∧ (waitForFill false requestedQty o).filledQty
                     = clampFilledQty (some (parseFilledQty ord)) requestedQty
                 ∧ (waitForFill false requestedQty o).fillSource
                     = some "REST_RECONCILE")
              ∧ (clampFilledQty (some (parseFilledQty ord)) requestedQty = 0 →
                 (waitForFill false requestedQty o).status
                     = FillStatus.unknownMatchedQty
                 ∧ (waitForFill false requestedQty o).filledQty = 0))
           ∧ (normalizeStatus ord.status ≠ "MATCHED" →
              normalizeStatus ord.status ≠ "FILLED" →
              normalizeStatus ord.status = "CANCELLED" →
              (0 < clampFilledQty (some (parseFilledQty ord)) requestedQty →
                 (waitForFill false requestedQty o).status = FillStatus.partialFill
                 ∧ (waitForFill false requestedQty o).filledQty
                     = clampFilledQty (some (parseFilledQty ord)) requestedQty
                 ∧ (waitForFill false requestedQty o).fillSource
                     = some "REST_RECONCILE")
              ∧ (clampFilledQty (some (parseFilledQty ord)) requestedQty = 0 →
                 (waitForFill false requestedQty o).status = FillStatus.cancelled
                 ∧ (waitForFill false requestedQty o).filledQty = 0))
           ∧ (normalizeStatus ord.status ≠ "MATCHED" →
              normalizeStatus ord.status ≠ "FILLED" →
              normalizeStatus ord.status ≠ "CANCELLED" →
              (waitForFill false requestedQty o).status
                  = FillStatus.unknownMatchedQty
              ∧ (waitForFill false requestedQty o).filledQty = 0))) := by
  constructor
  · intro hpos
    simp only [waitForFill, hws, hst, Bool.false_eq_true, if_false, reduceIte]
    rw [if_pos hpos]
  · intro hz
    constructor
    · intro hget
      rw [waitForFill_reconcile_eq requestedQty o w hws hst hz, hget]
      exact ⟨rfl, rfl⟩
    · intro ord hget
      rw [waitForFill_reconcile_eq requestedQty o w hws hst hz, hget]
      dsimp only
      refine ⟨?_, ?_, ?_⟩
      · intro hms
        rw [if_pos hms]
        constructor
        · intro hq
          rw [if_pos hq]
          exact ⟨rfl, rfl, rfl⟩
        · intro hq0
          rw [if_neg (by rw [hq0]; exact lt_irrefl 0)]
          exact ⟨rfl, rfl⟩
      · intro hnm hnf hc
        rw [if_neg (by rintro (h | h) <;> [exact hnm h; exact hnf h]), if_pos hc]
        constructor
        · intro hq
          simp only [if_pos hq]
          refine ⟨?_, ?_, ?_⟩ <;> first | rfl | trivial
        · intro hq0
          rw [hq0]
          refine ⟨?_, rfl⟩
          rw [if_neg (lt_irrefl 0)]
      · intro hnm hnf hnc
        rw [if_neg (by rintro (h | h) <;> [exact hnm h; exact hnf h]), if_neg hnc]
        exact ⟨rfl, rfl⟩

/-- A REST reconciliation answer confirming a matched order with 4 of 10
remaining (6 filled). -/
def matchedReconcileResp : OrderResp :=
  { status := some "matched", remainingSize := RawVal.val 4,
    remaining := RawVal.missing, sizeRemaining := RawVal.missing,
    size := RawVal.val 10, makerAmount := RawVal.missing,
    avgPrice := RawVal.val (13/25), fillPrice := RawVal.missing }

def c4WitnessWs : WsResult :=
  { status := "MATCHED", filledQty := RawVal.missing,
    avgPrice := RawVal.missing }

def c4WitnessOracle : WaitOracle :=
  { ws := some c4WitnessWs,
    getOrderOnce := some matchedReconcileResp, polls := [], finalFetch := none }

/-- Witness for the amended C4 at a concrete oracle: push MATCHED without a
quantity, REST confirming 6 filled of 10. -/
theorem C4_push_fill_reconciliation_witness :
    ((c4WitnessOracle.ws = some c4WitnessWs ∧ c4WitnessWs.status = "MATCHED")
     ∧ clampFilledQty (rvNum c4WitnessWs.filledQty) 10 = 0
     ∧ c4WitnessOracle.getOrderOnce = some matchedReconcileResp
     ∧ (normalizeStatus matchedReconcileResp.status = "MATCHED"
          ∨ normalizeStatus matchedReconcileResp.status = "FILLED")
     ∧ 0 < clampFilledQty (some (parseFilledQty matchedReconcileResp)) 10)
    ∧ ((waitForFill false 10 c4WitnessOracle).status = FillStatus.matched
       ∧ (waitForFill false 10 c4WitnessOracle).filledQty
           = clampFilledQty (some (parseFilledQty matchedReconcileResp)) 10
       ∧ (waitForFill false 10 c4WitnessOracle).fillSource
           = some "REST_RECONCILE") := by
  have hside : (normalizeStatus matchedReconcileResp.status = "MATCHED"
      ∨ normalizeStatus matchedReconcileResp.status = "FILLED") := by
    left
    decide
  have hpos : 0 < clampFilledQty (some (parseFilledQty matchedReconcileResp)) 10 := by
    norm_num [parseFilledQty, matchedReconcileResp, clampFilledQty, rvNum, rvCoalesce]
  refine ⟨⟨⟨rfl, rfl⟩, rfl, rfl, hside, hpos⟩, ?_⟩
  exact ((C4_push_fill_reconciliation 10 c4WitnessOracle c4WitnessWs rfl rfl).2
    rfl).2 matchedReconcileResp rfl |>.1 hside |>.1 hpos

/-- An exchange answer reporting MORE filled than requested (negative
remaining against a total of 10, implying 15 filled on a request of 10). -/
def overfillOrderResp : OrderResp :=
  { status := some "matched", remainingSize := RawVal.val (-5),
    remaining := RawVal.missing, sizeRemaining := RawVal.missing,
    size := RawVal.val 10, makerAmount := RawVal.missing,
    avgPrice := RawVal.val (1/2), fillPrice := RawVal.missing }

def overfillOracle : WaitOracle :=
  { ws := none, getOrderOnce := none, polls := [some overfillOrderResp],
    finalFetch := none }

/-- Witness for C3: the over-fill answer is clamped into `[0, 10]`
(and in fact to exactly 10). -/
theorem C3_fill_qty_clamp_witness :
    (0:ℚ) ≤ 10
    ∧ (0 ≤ (waitForFill false 10 overfillOracle).filledQty
       ∧ (waitForFill false 10 overfillOracle).filledQty ≤ 10) :=
  ⟨by norm_num, C3_fill_qty_clamp false 10 overfillOracle (by norm_num)⟩

/-- Witness for C10: the ledger part on a registered position being
over-closed (notional 50 against remaining size 10), and the executor part
on a live trade whose sell is partially filled. -/
theorem C10_remaining_exposure_nonneg_witness :
    (mapGet sPosB.openPositions "b" = some posB
     ∧ (mapGet (applyPartialClose sPosB "b" 50 1).openPositions "b"
          = some { posB with size := max 0 (posB.size - 50) }
        ∧ (0:ℚ) ≤ max 0 (posB.size - 50)))
    ∧ ((0:ℚ) ≤ tradeA.tokenQty ∧ (0:ℚ) ≤ tradeA.size
       ∧ ∀ t', mapGet ((exitPosition false execA tradeA "STOP_LOSS" (6/10)
             (some "x1") partialFillOracle 3).1).openOrders tradeA.id = some t' →
           0 ≤ t'.tokenQty ∧ 0 ≤ t'.size) := by
  refine ⟨⟨rfl, C10_remaining_exposure_nonneg.1 sPosB "b" 50 1 posB rfl⟩,
          ⟨by norm_num [tradeA], by norm_num [tradeA], ?_⟩⟩
  exact C10_remaining_exposure_nonneg.2 false execA tradeA "STOP_LOSS" (6/10)
    (some "x1") partialFillOracle 3 (by norm_num [tradeA]) (by norm_num [tradeA])
    (by
      intro v hv
      simp only [execA, mapGet, tradeA, if_pos, reduceIte, Option.some.injEq] at hv
      rw [← hv]
      norm_num)


theorem mem_iteSingleton {α : Type} (a b : α) (c : Prop) [Decidable c] :
    a ∈ (if c then [b] else []) ↔ (c ∧ a = b) := by
  split <;> rename_i h <;> simp [h]

theorem resetDaily_lastTradeTime (s : RiskState) (now nm : ℚ) :
    (resetDailyIfNeeded s now nm).lastTradeTime = s.lastTradeTime := by
  unfold resetDailyIfNeeded
  split <;> rfl

theorem resetDaily_killed (s : RiskState) (now nm : ℚ) :
    (resetDailyIfNeeded s now nm).killed = s.killed := by
  unfold resetDailyIfNeeded
  split <;> rfl

/-- The cooldown stamp happens exactly on accepted calls. -/
theorem canTrade_stamp_iff (cfg : RiskCfg) (s : RiskState) (now nm : ℚ)
    (sig0 : Option Signal) :
    (canTrade cfg s now nm sig0).state.lastTradeTime
      = (if (canTrade cfg s now nm sig0).allowed = true then now
         else s.lastTradeTime) := by
  simp only [canTrade]
  split
  · simp [resetDaily_lastTradeTime]
  · dsimp only
    cases hA : (canTradeReasons cfg (resetDailyIfNeeded s now nm) now sig0).isEmpty
    · simp only [hA, Bool.false_eq_true, if_false]
      split <;> simp [resetDaily_lastTradeTime]
    · simp [hA]

/-- An accepted call leaves the kill switch off. -/
theorem canTrade_allowed_killed (cfg : RiskCfg) (s : RiskState) (now nm : ℚ)
    (sig0 : Option Signal)
    (h : (canTrade cfg s now nm sig0).allowed = true) :
    (canTrade cfg s now nm sig0).state.killed = false := by
  simp only [canTrade] at h ⊢
  by_cases hk : (resetDailyIfNeeded s now nm).killed
  · rw [if_pos hk] at h
    exact absurd h (by simp)
  · rw [if_neg hk] at h ⊢
    dsimp only at h ⊢
    have hA : (canTradeReasons cfg (resetDailyIfNeeded s now nm) now sig0).isEmpty
        = true := h
    have hdd : ¬ cfg.maxDrawdownPct ≤
        ((resetDailyIfNeeded s now nm).peakBankroll
          - (resetDailyIfNeeded s now nm).bankroll)
          / (resetDailyIfNeeded s now nm).peakBankroll := by
      intro hc
      rw [List.isEmpty_iff] at hA
      simp only [canTradeReasons, List.append_eq_nil] at hA
      rw [if_pos hc] at hA
      simp at hA
    rw [if_neg hdd, if_pos hA]
    simpa using Bool.not_eq_true _ ▸ hk

/-- A rejected call leaves the reservation timestamp unchanged. -/
theorem canTrade_rejected_stamp (cfg : RiskCfg) (s : RiskState) (now nm : ℚ)
    (sig0 : Option Signal)
    (h : (canTrade cfg s now nm sig0).allowed = false) :
    (canTrade cfg s now nm sig0).state.lastTradeTime = s.lastTradeTime := by
  rw [canTrade_stamp_iff, h]
  simp

theorem cooldown_mem_canTradeReasons (cfg : RiskCfg) (s : RiskState)
    (now : ℚ) (sig0 : Option Signal) :
    Reason.cooldown ∈ canTradeReasons cfg s now sig0
      ↔ now - s.lastTradeTime < cfg.cooldownMs := by
  rcases sig0 with _ | sig
  · simp [canTradeReasons, mem_iteSingleton]
  · rcases hf : sig.estimatedFillProb with _ | p <;>
      rcases hl : sig.availableLiquidity with _ | liq <;>
      simp [canTradeReasons, mem_iteSingleton, hf, hl]

theorem canTrade_not_killed_parts (cfg : RiskCfg) (s : RiskState)
    (now nm : ℚ) (sig0 : Option Signal)
    (hk : (resetDailyIfNeeded s now nm).killed = false) :
    (canTrade cfg s now nm sig0).reasons
      = canTradeReasons cfg (resetDailyIfNeeded s now nm) now sig0
    ∧ (canTrade cfg s now nm sig0).allowed
      = (canTradeReasons cfg (resetDailyIfNeeded s now nm) now sig0).isEmpty := by
  simp only [canTrade]
  rw [if_neg (by simp [hk])]
  exact ⟨rfl, rfl⟩

/-- Claim C6 — cooldown reservation iff accepted: a `canTrade` call stamps
the `lastTradeTime` reservation with the call's time exactly when it
returns allowed, in the same call; and for two back-to-back calls under a
nonzero cooldown with the first accepted, the second is rejected with a
cooldown reason and leaves the reservation timestamp at the first call's
time. -/
theorem C6_cooldown_reservation :
    (∀ (cfg : RiskCfg) (s : RiskState) (now nm : ℚ) (sig0 : Option Signal),
       (canTrade cfg s now nm sig0).state.lastTradeTime
         = (if (canTrade cfg s now nm sig0).allowed = true then now
            else s.lastTradeTime))
    ∧ (∀ (cfg : RiskCfg) (s : RiskState) (now1 nm1 now2 nm2 : ℚ)
         (sig1 sig2 : Option Signal),
       0 < cfg.cooldownMs →
       (canTrade cfg s now1 nm1 sig1).allowed = true →
       now2 - now1 < cfg.cooldownMs →
       (canTrade cfg (canTrade cfg s now1 nm1 sig1).state now2 nm2 sig2).allowed
           = false
       ∧ Reason.cooldown
           ∈ (canTrade cfg (canTrade cfg s now1 nm1 sig1).state now2 nm2
               sig2).reasons
       ∧ (canTrade cfg (canTrade cfg s now1 nm1 sig1).state now2 nm2
             sig2).state.lastTradeTime = now1) := by
  constructor
  · exact canTrade_stamp_iff
  · intro cfg s now1 nm1 now2 nm2 sig1 sig2 _hcool hallowed hlt
    have hstamp : (canTrade cfg s now1 nm1 sig1).state.lastTradeTime = now1 := by
      rw [canTrade_stamp_iff, if_pos hallowed]
    have hkill1 := canTrade_allowed_killed cfg s now1 nm1 sig1 hallowed
    have hk2 : (resetDailyIfNeeded (canTrade cfg s now1 nm1 sig1).state now2
        nm2).killed = false := by
      rw [resetDaily_killed]
      exact hkill1
    have hparts := canTrade_not_killed_parts cfg
      (canTrade cfg s now1 nm1 sig1).state now2 nm2 sig2 hk2
    have hmemR : Reason.cooldown ∈ canTradeReasons cfg
        (resetDailyIfNeeded (canTrade cfg s now1 nm1 sig1).state now2 nm2)
        now2 sig2 := by
      rw [cooldown_mem_canTradeReasons, resetDaily_lastTradeTime, hstamp]
      exact hlt
    have hmem : Reason.cooldown ∈ (canTrade cfg
        (canTrade cfg s now1 nm1 sig1).state now2 nm2 sig2).reasons := by
      rw [hparts.1]
      exact hmemR
    have hallowed2 : (canTrade cfg (canTrade cfg s now1 nm1 sig1).state now2
        nm2 sig2).allowed = false := by
      rw [hparts.2, Bool.eq_false_iff]
      intro hTrue
      rw [List.isEmpty_iff] at hTrue
      rw [hTrue] at hmemR
      cases hmemR
    refine ⟨hallowed2, hmem, ?_⟩
    rw [canTrade_rejected_stamp _ _ _ _ _ hallowed2, hstamp]

theorem dailyLossLimit_mem_canTradeReasons (cfg : RiskCfg) (s : RiskState)
    (now : ℚ) (sig0 : Option Signal) :
    Reason.dailyLossLimit ∈ canTradeReasons cfg s now sig0
      ↔ s.bankroll ≤ s.dailyHighWatermark - cfg.dailyLossLimit := by
  rcases sig0 with _ | sig
  · simp [canTradeReasons, mem_iteSingleton]
  · rcases hf : sig.estimatedFillProb with _ | p <;>
      rcases hl : sig.availableLiquidity with _ | liq <;>
      simp [canTradeReasons, mem_iteSingleton, hf, hl]

theorem insufficientLiquidity_mem_canTradeReasons (cfg : RiskCfg)
    (s : RiskState) (now : ℚ) (sig : Signal) (liq : ℚ)
    (hliq : sig.availableLiquidity = some liq) :
    Reason.insufficientLiquidity ∈ canTradeReasons cfg s now (some sig)
      ↔ liq * (3/4) < 5 := by
  rcases hf : sig.estimatedFillProb with _ | p <;>
    simp [canTradeReasons, mem_iteSingleton, hf, hliq]

theorem canTrade_not_killed_signal (cfg : RiskCfg) (s : RiskState)
    (now nm : ℚ) (sig0 : Option Signal)
    (hk : (resetDailyIfNeeded s now nm).killed = false) :
    (canTrade cfg s now nm sig0).signal = canTradeScaledSignal sig0 := by
  simp only [canTrade]
  rw [if_neg (by simp [hk])]

/-- The reset guard does nothing before the reset time. -/
theorem resetDaily_id (s : RiskState) (now nm : ℚ)
    (h : ¬ s.dailyResetTime < now) : resetDailyIfNeeded s now nm = s := by
  unfold resetDailyIfNeeded
  rw [if_neg h]

def cfgEx : RiskCfg :=
  { bankroll := 1300, maxOpenPositions := 8, cooldownMs := 3000,
    slippageBps := 15, maxDrawdownPct := 1/4, dailyLossLimit := 200 }

/-- Witness for C6 on the default config: a fresh ledger accepts a call at
time 5000 and rejects a second call at time 6000 (1000ms into the 3000ms
cooldown), leaving the reservation at 5000. -/
theorem C6_cooldown_reservation_witness :
    ((0:ℚ) < cfgEx.cooldownMs
     ∧ (canTrade cfgEx s1000 5000 999999 none).allowed = true
     ∧ (6000:ℚ) - 5000 < cfgEx.cooldownMs)
    ∧ ((canTrade cfgEx (canTrade cfgEx s1000 5000 999999 none).state 6000
          999999 none).allowed = false
       ∧ Reason.cooldown ∈ (canTrade cfgEx
           (canTrade cfgEx s1000 5000 999999 none).state 6000 999999
           none).reasons
       ∧ (canTrade cfgEx (canTrade cfgEx s1000 5000 999999 none).state 6000
             999999 none).state.lastTradeTime = 5000) := by
  have h1 : (0:ℚ) < cfgEx.cooldownMs := by norm_num [cfgEx]
  have h2 : (canTrade cfgEx s1000 5000 999999 none).allowed = true := by
    norm_num [canTrade, canTradeReasons, canTradeScaledSignal,
      resetDailyIfNeeded, s1000, cfgEx]
  have h3 : (6000:ℚ) - 5000 < cfgEx.cooldownMs := by norm_num [cfgEx]
  exact ⟨⟨h1, h2, h3⟩,
    C6_cooldown_reservation.2 cfgEx s1000 5000 999999 6000 999999 none none
      h1 h2 h3⟩

/-- Claim C8 (amended) — daily loss limit boundary: on a live (non-killed)
ledger before the daily reset, `canTrade` adds the daily-loss-limit
rejection reason exactly when the bankroll has fallen AT LEAST the
configured dollar limit below today's intraday high-watermark — i.e.
`bankroll ≤ dailyHighWatermark − dailyLossLimit`, boundary included (the
claim as stated required strictly more than the limit, exempting the
boundary); the limit is measured against today's peak, not the
session-start bankroll. -/
theorem C8_daily_loss_limit_boundary (cfg : RiskCfg) (s : RiskState)
    (now nm : ℚ) (sig0 : Option Signal)
    (hkill : s.killed = false) (hreset : ¬ s.dailyResetTime < now) :
    Reason.dailyLossLimit ∈ (canTrade cfg s now nm sig0).reasons
      ↔ s.bankroll ≤ s.dailyHighWatermark - cfg.dailyLossLimit := by
  have hrd := resetDaily_id s now nm hreset
  have hk : (resetDailyIfNeeded s now nm).killed = false := by
    rw [hrd]
    exact hkill
  rw [(canTrade_not_killed_parts cfg s now nm sig0 hk).1, hrd]
  exact dailyLossLimit_mem_canTradeReasons cfg s now sig0

/-- A ledger sitting exactly at `dailyHighWatermark − dailyLossLimit`
(high-watermark 1300, limit 200, bankroll 1100). -/
def sBoundary : RiskState :=
  { bankroll := 1100, peakBankroll := 1300, openPositions := [],
    lastTradeTime := 0, dailyPnl := -200, dailyTrades := 3,
    dailyHighWatermark := 1300, dailyResetTime := 1000000, killed := false,
    killReason := none }

/-- Counterexample to claim C8 as stated: with the bankroll at exactly
`dailyHighWatermark − dailyLossLimit` (fallen exactly the limit, not
strictly more), the source's `<=` comparison DOES add the daily-loss-limit
reason and blocks the trade — the claim asserted this boundary state is not
blocked. -/
theorem C8_daily_loss_limit_boundary_counterexample :
    sBoundary.bankroll = sBoundary.dailyHighWatermark - cfgEx.dailyLossLimit
    ∧ Reason.dailyLossLimit
        ∈ (canTrade cfgEx sBoundary 5000 999999 none).reasons
    ∧ (canTrade cfgEx sBoundary 5000 999999 none).allowed = false := by
  refine ⟨by norm_num [sBoundary, cfgEx], ?_, ?_⟩ <;>
    norm_num [canTrade, canTradeReasons, canTradeScaledSignal,
      resetDailyIfNeeded, sBoundary, cfgEx, mem_iteSingleton]

/-- Witness for the amended C8 at the boundary ledger. -/
theorem C8_daily_loss_limit_boundary_witness :
    (sBoundary.killed = false ∧ ¬ sBoundary.dailyResetTime < (5000:ℚ))
    ∧ (Reason.dailyLossLimit
         ∈ (canTrade cfgEx sBoundary 5000 999999 none).reasons
       ↔ sBoundary.bankroll
           ≤ sBoundary.dailyHighWatermark - cfgEx.dailyLossLimit) :=
  ⟨⟨rfl, by norm_num [sBoundary]⟩,
   C8_daily_loss_limit_boundary cfgEx sBoundary 5000 999999 none rfl
     (by norm_num [sBoundary])⟩

/-- Claim C7 — liquidity auto-scale: for a signal with a defined available
liquidity, on a live (non-killed) ledger before the daily reset, `canTrade`
pushes the insufficient-liquidity rejection exactly when 75% of the
available liquidity is below the $5 floor; above the floor, a signal size
exceeding 75% of the available liquidity is scaled down to exactly that
threshold rounded to cents, and a smaller size is left unchanged (the
liquidity check passes in both cases). -/
theorem C7_liquidity_auto_scale (cfg : RiskCfg) (s : RiskState) (now nm : ℚ)
    (sig : Signal) (liq : ℚ)
    (hkill : s.killed = false) (hreset : ¬ s.dailyResetTime < now)
    (hliq : sig.availableLiquidity = some liq) :
    (Reason.insufficientLiquidity ∈ (canTrade cfg s now nm (some sig)).reasons
       ↔ liq * (3/4) < 5)
    ∧ (¬ liq * (3/4) < 5 → liq * (3/4) < sig.size →
        (canTrade cfg s now nm (some sig)).signal
          = some { sig with size := round2 (liq * (3/4)) })
    ∧ (¬ liq * (3/4) < 5 → ¬ liq * (3/4) < sig.size →
        (canTrade cfg s now nm (some sig)).signal = some sig) := by
  have hrd := resetDaily_id s now nm hreset
  have hk : (resetDailyIfNeeded s now nm).killed = false := by
    rw [hrd]
    exact hkill
  refine ⟨?_, ?_, ?_⟩
  · rw [(canTrade_not_killed_parts cfg s now nm (some sig) hk).1, hrd]
    exact insufficientLiquidity_mem_canTradeReasons cfg s now sig liq hliq
  · intro hfloor hscale
    rw [canTrade_not_killed_signal cfg s now nm (some sig) hk]
    simp only [canTradeScaledSignal, hliq]
    rw [if_neg hfloor, if_pos hscale]
  · intro hfloor hscale
    rw [canTrade_not_killed_signal cfg s now nm (some sig) hk]
    simp only [canTradeScaledSignal, hliq]
    rw [if_neg hfloor, if_neg hscale]

/-- The spec's first liquidity example: intended size $20 against $20 of
available book depth. -/
def sigLiq20 : Signal :=
  { label := "BTC-UP-1H", direction := "BUY_YES", tokenId := "tok1",
    entryPrice := 1/2, contractPrice := 1/2, size := 20, edge := 1/10,
    modelProb := 6/10, hoursToExpiry := 1/100, spreadF := none,
    availableLiquidity := some 20, estimatedFillProb := some 1 }

/-- The spec's second liquidity example: intended size $5.50 against $6 of
available book depth (75% of 6 = 4.5 is below the $5 floor). -/
def sigLiq6 : Signal := { sigLiq20 with size := 11/2, availableLiquidity := some 6 }

/-- Witness for C7 on both spec examples: size 20 with liquidity 20 is
scaled to exactly 15.00 (and the call is accepted); size 5.50 with
liquidity 6 is rejected for insufficient liquidity. -/
theorem C7_liquidity_auto_scale_witness :
    (s1000.killed = false ∧ ¬ s1000.dailyResetTime < (5000:ℚ)
     ∧ sigLiq20.availableLiquidity = some 20
     ∧ sigLiq6.availableLiquidity = some 6)
    ∧ ((canTrade cfgEx s1000 5000 999999 (some sigLiq20)).signal
         = some { sigLiq20 with size := round2 ((20:ℚ) * (3/4)) }
       ∧ round2 ((20:ℚ) * (3/4)) = 15
       ∧ (canTrade cfgEx s1000 5000 999999 (some sigLiq20)).allowed = true)
    ∧ (Reason.insufficientLiquidity
         ∈ (canTrade cfgEx s1000 5000 999999 (some sigLiq6)).reasons
       ∧ (6:ℚ) * (3/4) < 5
       ∧ (canTrade cfgEx s1000 5000 999999 (some sigLiq6)).allowed = false) := by
  have hr : ¬ s1000.dailyResetTime < (5000:ℚ) := by norm_num [s1000]
  have hround : round2 ((20:ℚ) * (3/4)) = 15 := by
    norm_num [round2, jsRound]
  refine ⟨⟨rfl, hr, rfl, rfl⟩, ⟨?_, hround, ?_⟩, ⟨?_, by norm_num, ?_⟩⟩
  · exact (C7_liquidity_auto_scale cfgEx s1000 5000 999999 sigLiq20 20 rfl hr
      rfl).2.1 (by norm_num) (by norm_num [sigLiq20])
  · norm_num [canTrade, canTradeReasons, canTradeScaledSignal,
      resetDailyIfNeeded, s1000, cfgEx, sigLiq20, polymarketFee]
  · exact (C7_liquidity_auto_scale cfgEx s1000 5000 999999 sigLiq6 6 rfl hr
      rfl).1.mpr (by norm_num)
  · norm_num [canTrade, canTradeReasons, canTradeScaledSignal,
      resetDailyIfNeeded, s1000, cfgEx, sigLiq6, sigLiq20, polymarketFee,
      List.isEmpty_iff]

/-- Claim C5 — ambiguous-fill fail-closed: when entry fill confirmation
yields UNKNOWN_MATCHED_QTY, `execute` issues a best-effort cancel of the
order, raises an alert, and returns null with no ledger mutation: the risk
ledger, the open-order map, the trade history, the P&L statistics and the
monitoring routing table are all unchanged, and no filled quantity is
guessed. -/
theorem C5_unknown_qty_fail_closed (dryRun : Bool) (s : ExecState)
    (sig : Signal) (f : Feeds) (latency now : ℚ) (order0 orderF : OrderRec)
    (fill : FillResult) (acts2 : List ExchangeAction)
    (hp0 : (f.popPlace).1 = some order0)
    (hsim : order0.status ≠ "SIMULATED")
    (hphase : entryFillPhase dryRun sig (selectOrderStrategy sig).1
        (selectOrderStrategy sig).2 (sig.size / (selectOrderStrategy sig).2)
        order0 (f.popPlace).2 = Except.ok (orderF, fill, acts2))
    (hunk : fill.status = FillStatus.unknownMatchedQty) :
    (execute dryRun s sig f latency now).trade = none
    ∧ (execute dryRun s sig f latency now).state.risk = s.risk
    ∧ (execute dryRun s sig f latency now).state.openOrders = s.openOrders
    ∧ (execute dryRun s sig f latency now).state.tradeHistory = s.tradeHistory
    ∧ (execute dryRun s sig f latency now).state.pnlStats = s.pnlStats
    ∧ (execute dryRun s sig f latency now).state.tokenToTrades
        = s.tokenToTrades
    ∧ ExchangeAction.cancel orderF.id ∈ (execute dryRun s sig f latency now).acts
    ∧ (execute dryRun s sig f latency now).alerts ≠ [] := by
  have hexec : execute dryRun s sig f latency now
      = ⟨{ pushLatency { s with fillRateStats :=
             { s.fillRateStats with attempted := s.fillRateStats.attempted + 1 } }
             latency with
           fillTracker := ftRecord (pushLatency { s with fillRateStats :=
             { s.fillRateStats with attempted := s.fillRateStats.attempted + 1 } }
             latency).fillTracker sig fill.status
           fillRateStats :=
             { (pushLatency { s with fillRateStats :=
                 { s.fillRateStats with attempted := s.fillRateStats.attempted + 1 } }
                 latency).fillRateStats with
               failed := (pushLatency { s with fillRateStats :=
                 { s.fillRateStats with attempted := s.fillRateStats.attempted + 1 } }
                 latency).fillRateStats.failed + 1 } },
         none,
         ([ExchangeAction.place sig.tokenId "BUY" (selectOrderStrategy sig).2
             (sig.size / (selectOrderStrategy sig).2)] ++ acts2)
           ++ [ExchangeAction.cancel orderF.id],
         ["matched fill with unknown quantity - entry aborted"]⟩ := by
    simp only [execute, hp0, hphase]
    rw [if_neg hsim]
    rw [hunk]
    rfl
  rw [hexec]
  refine ⟨rfl, rfl, rfl, rfl, rfl, rfl, ?_, by simp⟩
  simp [pushLatency]

/-- A push-channel answer that forces UNKNOWN_MATCHED_QTY: MATCHED with a
missing quantity, and the REST reconciliation call throws. -/
def unknownQtyOracle : WaitOracle :=
  { ws := some { status := "MATCHED", filledQty := RawVal.missing,
                 avgPrice := RawVal.missing },
    getOrderOnce := none, polls := [], finalFetch := none }

def feedsUnknown : Feeds :=
  { places := [some { id := "ordX", status := "LIVE" }],
    fills := [unknownQtyOracle], books := [] }

/-- Witness for C5 at a concrete taker entry whose fill confirmation is
ambiguous. -/
theorem C5_unknown_qty_fail_closed_witness :
    ((feedsUnknown.popPlace).1 = some { id := "ordX", status := "LIVE" }
     ∧ ({ id := "ordX", status := "LIVE" } : OrderRec).status ≠ "SIMULATED"
     ∧ entryFillPhase false sigA (selectOrderStrategy sigA).1
         (selectOrderStrategy sigA).2
         (sigA.size / (selectOrderStrategy sigA).2)
         { id := "ordX", status := "LIVE" } (feedsUnknown.popPlace).2
         = Except.ok ({ id := "ordX", status := "LIVE" },
             { status := FillStatus.unknownMatchedQty, avgPrice := none,
               filledQty := 0, fillSource := some "WS",
               qtyConfidence := some "unknown" }, []))
    ∧ ((execute false execA sigA feedsUnknown 5 3).trade = none
       ∧ (execute false execA sigA feedsUnknown 5 3).state.risk = execA.risk
       ∧ (execute false execA sigA feedsUnknown 5 3).state.openOrders
           = execA.openOrders
       ∧ (execute false execA sigA feedsUnknown 5 3).state.tradeHistory
           = execA.tradeHistory
       ∧ (execute false execA sigA feedsUnknown 5 3).state.pnlStats
           = execA.pnlStats
       ∧ (execute false execA sigA feedsUnknown 5 3).state.tokenToTrades
           = execA.tokenToTrades
       ∧ ExchangeAction.cancel "ordX"
           ∈ (execute false execA sigA feedsUnknown 5 3).acts
       ∧ (execute false execA sigA feedsUnknown 5 3).alerts ≠ []) := by
  have hphase : entryFillPhase false sigA (selectOrderStrategy sigA).1
      (selectOrderStrategy sigA).2 (sigA.size / (selectOrderStrategy sigA).2)
      { id := "ordX", status := "LIVE" } (feedsUnknown.popPlace).2
      = Except.ok ({ id := "ordX", status := "LIVE" },
          { status := FillStatus.unknownMatchedQty, avgPrice := none,
            filledQty := 0, fillSource := some "WS",
            qtyConfidence := some "unknown" }, []) := by
    norm_num [entryFillPhase, selectOrderStrategy, waitForFill, feedsUnknown,
      unknownQtyOracle, clampFilledQty, rvNum, parsePrice, sigA,
      Feeds.popPlace, Feeds.popFill]
  refine ⟨⟨rfl, by decide, hphase⟩, ?_⟩
  exact C5_unknown_qty_fail_closed false execA sigA feedsUnknown 5 3
    { id := "ordX", status := "LIVE" } { id := "ordX", status := "LIVE" }
    { status := FillStatus.unknownMatchedQty, avgPrice := none,
      filledQty := 0, fillSource := some "WS",
      qtyConfidence := some "unknown" } [] rfl (by decide) hphase rfl
